import Mathlib

/-!
Verification of the StationIapetus locomotion/combat controller core.

A shallow embedding of the Rust sources under `src/game/src` (weapon hit-scan
resolution, player input handling and shooting orchestration, shot-trail decay)
together with theorems settling the behavioural claims of the specification.

Modelling conventions:
* generational `Handle<T>` values are modelled as `Nat`, with `0` playing the
  role of `Handle::NONE` (the default handle);
* `f32`/`f64` scalars are modelled as `ℚ`;
* the physics world, the scene graph and the animation runtime are external
  collaborators: their outputs (sorted intersection buffers, global positions,
  animation playback states) are inputs to the embedded functions, and the
  mutations the code performs on them are returned explicitly.
-/

namespace StationIapetus

/-- A 3-component vector with rational coordinates (models `Vector3<f32>`). -/
structure Vec3 where
  x : ℚ
  y : ℚ
  z : ℚ
deriving DecidableEq, Repr

/-- Componentwise sum, used for the item-display offset. -/
def Vec3.add (a b : Vec3) : Vec3 := ⟨a.x + b.x, a.y + b.y, a.z + b.z⟩

/-- `Vector3::scale` — componentwise scaling. -/
def Vec3.scale (a : Vec3) (k : ℚ) : Vec3 := ⟨a.x * k, a.y * k, a.z * k⟩

/-- Squared Euclidean distance.  The source compares `(a - b).norm() < r`;
for nonnegative `r` this is equivalent to `distSq a b < r^2`, which avoids
the irrational square root. -/
def Vec3.distSq (a b : Vec3) : ℚ :=
  (a.x - b.x) ^ 2 + (a.y - b.y) ^ 2 + (a.z - b.z) ^ 2

/-- Model of `Handle<T>` (generational index); `0` is `Handle::NONE`. -/
abbrev Handle := Nat

/-- `Handle::NONE`, the default handle. -/
def Handle.NONE : Handle := 0

/-- A hit box registered on an actor (from `character::HitBox`): the collider
node it is attached to.  Damage multipliers are irrelevant to the claims and
omitted. -/
structure HitBox where
  collider : Handle
deriving DecidableEq, Repr

/-- The part of an `Actor` visible to `ray_hit`: its list of hit boxes. -/
structure Actor where
  hit_boxes : List HitBox
deriving DecidableEq, Repr

/-- `projectile::Shooter` — the attributed source of a ray or projectile. -/
inductive Shooter where
  | none
  | turret (h : Handle)
  | actor (h : Handle)
  | weapon (h : Handle)
deriving DecidableEq, Repr

/-- One entry of the physics query buffer (`physics::Intersection`). -/
structure Intersection where
  collider : Handle
  position : Vec3
  normal : Vec3
  feature : Nat
deriving DecidableEq, Repr

/-- `weapon::Hit` — the result of one ray cast. -/
structure Hit where
  actor : Handle
  who : Handle
  position : Vec3
  normal : Vec3
  collider : Handle
  feature : Nat
  hit_box : Option HitBox
  query_buffer : List Intersection
deriving DecidableEq, Repr

/-- The `who` owner attribution computed inside `ray_hit`'s actor loop:
`Shooter::None | Shooter::Turret(_)` default to `Handle::NONE`,
`Shooter::Actor` is the actor itself, `Shooter::Weapon` is the weapon's
owner (looked up in the weapon container, modelled as a total map). -/
def shooterWho (shooter : Shooter) (weaponOwner : Handle → Handle) : Handle :=
  match shooter with
  | .none => Handle.NONE
  | .turret _ => Handle.NONE
  | .actor a => a
  | .weapon w => weaponOwner w

/-- The first hit box of `a` whose collider equals `c` — the inner
`for hit_box in actor.hit_boxes` loop only ever acts on this one. -/
def hitboxMatch (c : Handle) (a : Actor) : Option HitBox :=
  a.hit_boxes.find? (fun hb => hb.collider = c)

/-- The labelled `'actor_loop` of `ray_hit`: walks the actor container in
order; whenever some hit box of the current actor matches the struck collider
the `is_hitbox_hit` flag (first component) is set; if the matching actor is
the shooter's owner the whole actor is skipped (`continue 'actor_loop`),
otherwise the loop returns that actor and hit box (second component). -/
def scanActors (c : Handle) (who : Handle) :
    List (Handle × Actor) → Bool × Option (Handle × HitBox)
  | [] => (false, none)
  | (h, a) :: rest =>
    match hitboxMatch c a with
    | some hb =>
      if who = h then (true, (scanActors c who rest).2)
      else (true, some (h, hb))
    | none => scanActors c who rest

/-- `weapon::ray_hit`, given the sorted intersection buffer the physics world
produced for the cast (`cast_ray` is an external collaborator).  Filters out
the ignored collider, takes the nearest remaining intersection and attributes
it through the actor hit-box scan. -/
def ray_hit (query_buffer : List Intersection) (shooter : Shooter)
    (weaponOwner : Handle → Handle) (actors : List (Handle × Actor))
    (ignored_collider : Handle) : Option Hit :=
  match query_buffer.find? (fun i => i.collider ≠ ignored_collider) with
  | Option.none => none
  | Option.some hit =>
    let who := shooterWho shooter weaponOwner
    match scanActors hit.collider who actors with
    | (_, some (actor_handle, hb)) =>
      some { actor := actor_handle, who := who, position := hit.position
             normal := hit.normal, collider := hit.collider
             feature := hit.feature, hit_box := some hb
             query_buffer := query_buffer }
    | (true, Option.none) => none
    | (false, Option.none) =>
      some { actor := Handle.NONE, who := Handle.NONE, position := hit.position
             normal := hit.normal, collider := hit.collider
             feature := hit.feature, hit_box := none
             query_buffer := query_buffer }

/-- The environment `Hit` (no actor attribution) that `ray_hit` builds when
the nearest intersection matches no hit box at all. -/
def environmentHit (hit : Intersection) (qb : List Intersection) : Hit :=
  { actor := Handle.NONE, who := Handle.NONE, position := hit.position
    normal := hit.normal, collider := hit.collider, feature := hit.feature
    hit_box := none, query_buffer := qb }

/-- The `is_hitbox_hit` flag is set exactly when some actor in the container
has a hit box on the struck collider. -/
theorem scanActors_fst (c who : Handle) (l : List (Handle × Actor)) :
    (scanActors c who l).1 = l.any (fun p => (hitboxMatch c p.2).isSome) := by
  induction l with
  | nil => rfl
  | cons p rest ih =>
    obtain ⟨h, a⟩ := p
    simp only [scanActors, List.any_cons]
    cases hm : hitboxMatch c a with
    | none => simpa [hm] using ih
    | some hb => by_cases hw : who = h <;> simp [hw]

/-- If the actor scan returns an attribution, it names an actor of the
container with a matching hit box, and that actor is not the owner. -/
theorem scanActors_snd_some (c who : Handle) (l : List (Handle × Actor))
    (h : Handle) (hb : HitBox) (hs : (scanActors c who l).2 = some (h, hb)) :
    ∃ a, (h, a) ∈ l ∧ hitboxMatch c a = some hb ∧ h ≠ who := by
  induction l with
  | nil => simp [scanActors] at hs
  | cons p rest ih =>
    obtain ⟨h0, a0⟩ := p
    cases hm : hitboxMatch c a0 with
    | none =>
      simp only [scanActors, hm] at hs
      obtain ⟨a, ha, hma, hne⟩ := ih hs
      exact ⟨a, List.mem_cons_of_mem _ ha, hma, hne⟩
    | some hb0 =>
      simp only [scanActors, hm] at hs
      by_cases hw : who = h0
      · simp only [if_pos hw] at hs
        obtain ⟨a, ha, hma, hne⟩ := ih hs
        exact ⟨a, List.mem_cons_of_mem _ ha, hma, hne⟩
      · simp only [if_neg hw, Option.some.injEq, Prod.mk.injEq] at hs
        obtain ⟨rfl, rfl⟩ := hs
        exact ⟨a0, List.mem_cons_self _ _, hm, fun hh => hw hh.symm⟩

/-- If some actor other than the owner has a matching hit box, the scan
returns an attribution. -/
theorem scanActors_snd_isSome (c who : Handle) (l : List (Handle × Actor))
    (hex : ∃ p ∈ l, (hitboxMatch c p.2).isSome ∧ p.1 ≠ who) :
    ((scanActors c who l).2).isSome := by
  induction l with
  | nil => simp at hex
  | cons p rest ih =>
    obtain ⟨h0, a0⟩ := p
    obtain ⟨q, hq, hqs, hqw⟩ := hex
    rcases List.mem_cons.1 hq with rfl | hq
    · obtain ⟨hb, hm⟩ := Option.isSome_iff_exists.1 hqs
      have hne : ¬who = h0 := fun hw => hqw hw.symm
      simp only [scanActors, hm, if_neg hne]
      rfl
    · cases hm : hitboxMatch c a0 with
      | none =>
        simp only [scanActors, hm]
        exact ih ⟨q, hq, hqs, hqw⟩
      | some hb0 =>
        by_cases hw : who = h0
        · simp only [scanActors, hm, if_pos hw]
          exact ih ⟨q, hq, hqs, hqw⟩
        · simp only [scanActors, hm, if_neg hw]
          rfl

/-- If every actor with a matching hit box is the owner itself, the scan
returns no attribution. -/
theorem scanActors_snd_none (c who : Handle) (l : List (Handle × Actor))
    (hall : ∀ p ∈ l, (hitboxMatch c p.2).isSome → p.1 = who) :
    (scanActors c who l).2 = none := by
  induction l with
  | nil => rfl
  | cons p rest ih =>
    obtain ⟨h0, a0⟩ := p
    cases hm : hitboxMatch c a0 with
    | none =>
      simp only [scanActors, hm]
      exact ih fun q hq => hall q (List.mem_cons_of_mem _ hq)
    | some hb0 =>
      have hw : h0 = who := hall (h0, a0) (List.mem_cons_self _ _) (by simp [hm])
      simp only [scanActors, hm, if_pos hw.symm]
      exact ih fun q hq => hall q (List.mem_cons_of_mem _ hq)

/-- `ray_hit` inversion: no remaining intersection means no hit. -/
theorem ray_hit_of_find_none (qb : List Intersection) (s : Shooter)
    (w : Handle → Handle) (actors : List (Handle × Actor)) (ign : Handle)
    (hfind : qb.find? (fun i => i.collider ≠ ign) = none) :
    ray_hit qb s w actors ign = none := by
  simp only [ne_eq, decide_not] at hfind
  simp [ray_hit, hfind]

/-- `ray_hit` inversion: an actor-scan attribution yields the actor hit. -/
theorem ray_hit_of_scan_some (qb : List Intersection) (s : Shooter)
    (w : Handle → Handle) (actors : List (Handle × Actor)) (ign : Handle)
    (hit : Intersection) (h : Handle) (hb : HitBox)
    (hfind : qb.find? (fun i => i.collider ≠ ign) = some hit)
    (hsc : (scanActors hit.collider (shooterWho s w) actors).2 = some (h, hb)) :
    ray_hit qb s w actors ign =
      some { actor := h, who := shooterWho s w, position := hit.position
             normal := hit.normal, collider := hit.collider
             feature := hit.feature, hit_box := some hb
             query_buffer := qb } := by
  rcases hp : scanActors hit.collider (shooterWho s w) actors with ⟨b, o⟩
  rw [hp] at hsc
  simp only at hsc
  subst hsc
  simp only [ne_eq, decide_not] at hfind
  simp [ray_hit, hfind, hp]

/-- `ray_hit` inversion: a hit-box match that only involves the shooter's
own hit boxes (`is_hitbox_hit` true, no attribution) yields no hit. -/
theorem ray_hit_of_scan_own (qb : List Intersection) (s : Shooter)
    (w : Handle → Handle) (actors : List (Handle × Actor)) (ign : Handle)
    (hit : Intersection)
    (hfind : qb.find? (fun i => i.collider ≠ ign) = some hit)
    (hsc : scanActors hit.collider (shooterWho s w) actors = (true, none)) :
    ray_hit qb s w actors ign = none := by
  simp only [ne_eq, decide_not] at hfind
  simp [ray_hit, hfind, hsc]

/-- `ray_hit` inversion: no hit-box match at all yields the environment hit. -/
theorem ray_hit_of_scan_env (qb : List Intersection) (s : Shooter)
    (w : Handle → Handle) (actors : List (Handle × Actor)) (ign : Handle)
    (hit : Intersection)
    (hfind : qb.find? (fun i => i.collider ≠ ign) = some hit)
    (hsc : scanActors hit.collider (shooterWho s w) actors = (false, none)) :
    ray_hit qb s w actors ign = some (environmentHit hit qb) := by
  simp only [ne_eq, decide_not] at hfind
  simp [ray_hit, hfind, hsc, environmentHit]

/-- C1: `ray_hit` resolution.  If no intersection has a collider different
from the ignored collider, the result is `none`.  Otherwise, for the nearest
remaining intersection: (a) if its collider is a registered hit box of some
actor other than the shooter's attributed owner, the result is a `Hit` with
an actor of the container and that actor's matching hit box set (and `who`
set to the owner); (b) if the matching hit boxes belong only to the shooter
itself, the result is `none`; (c) if the collider matches no hit box of any
actor, the result is the environment `Hit` with `actor = NONE` and
`hit_box = none`.  Consequently, assuming all container handles are valid
(non-`NONE`), every returned `Hit` has a non-empty actor field iff its
`hit_box` is `some`. -/
theorem ray_hit_resolution (qb : List Intersection) (s : Shooter)
    (w : Handle → Handle) (actors : List (Handle × Actor)) (ign : Handle)
    (hvalid : ∀ p ∈ actors, p.1 ≠ Handle.NONE) :
    (qb.find? (fun i => i.collider ≠ ign) = none →
      ray_hit qb s w actors ign = none)
    ∧ (∀ hit, qb.find? (fun i => i.collider ≠ ign) = some hit →
        ((∃ p ∈ actors, (hitboxMatch hit.collider p.2).isSome ∧
            p.1 ≠ shooterWho s w) →
          ∃ ht a hb, ray_hit qb s w actors ign = some ht ∧
            (ht.actor, a) ∈ actors ∧ ht.actor ≠ shooterWho s w ∧
            hitboxMatch hit.collider a = some hb ∧ ht.hit_box = some hb ∧
            ht.who = shooterWho s w ∧ ht.collider = hit.collider)
        ∧ ((∃ p ∈ actors, (hitboxMatch hit.collider p.2).isSome) →
            (∀ p ∈ actors, (hitboxMatch hit.collider p.2).isSome →
              p.1 = shooterWho s w) →
            ray_hit qb s w actors ign = none)
        ∧ ((∀ p ∈ actors, hitboxMatch hit.collider p.2 = none) →
            ray_hit qb s w actors ign = some (environmentHit hit qb)))
    ∧ (∀ ht, ray_hit qb s w actors ign = some ht →
        (ht.actor ≠ Handle.NONE ↔ ht.hit_box.isSome)) := by
  refine ⟨ray_hit_of_find_none qb s w actors ign, ?_, ?_⟩
  · intro hit hfind
    refine ⟨?_, ?_, ?_⟩
    · intro hex
      have hsome := scanActors_snd_isSome hit.collider (shooterWho s w) actors hex
      obtain ⟨⟨h, hb⟩, hsc⟩ := Option.isSome_iff_exists.1 hsome
      obtain ⟨a, ha, hma, hne⟩ :=
        scanActors_snd_some hit.collider (shooterWho s w) actors h hb hsc
      exact ⟨_, a, hb, ray_hit_of_scan_some qb s w actors ign hit h hb hfind hsc,
        ha, hne, hma, rfl, rfl, rfl⟩
    · intro hex hall
      have h2 := scanActors_snd_none hit.collider (shooterWho s w) actors hall
      have h1 : (scanActors hit.collider (shooterWho s w) actors).1 = true := by
        rw [scanActors_fst]
        obtain ⟨p, hp, hps⟩ := hex
        exact List.any_eq_true.2 ⟨p, hp, hps⟩
      exact ray_hit_of_scan_own qb s w actors ign hit hfind
        (Prod.ext h1 h2)
    · intro hall
      have h2 := scanActors_snd_none hit.collider (shooterWho s w) actors
        (fun p hp hps => absurd hps (by simp [hall p hp]))
      have h1 : (scanActors hit.collider (shooterWho s w) actors).1 = false := by
        rw [scanActors_fst]
        simp only [List.any_eq_false]
        intro p hp
        simp [hall p hp]
      exact ray_hit_of_scan_env qb s w actors ign hit hfind (Prod.ext h1 h2)
  · intro ht hsome
    cases hfind : qb.find? (fun i => i.collider ≠ ign) with
    | none =>
      rw [ray_hit_of_find_none qb s w actors ign hfind] at hsome
      exact absurd hsome (by simp)
    | some hit =>
      rcases hp : scanActors hit.collider (shooterWho s w) actors with ⟨b, o⟩
      cases o with
      | some pr =>
        obtain ⟨h, hb⟩ := pr
        have := ray_hit_of_scan_some qb s w actors ign hit h hb hfind (by rw [hp])
        rw [this] at hsome
        obtain ⟨a, ha, _, hne⟩ :=
          scanActors_snd_some hit.collider (shooterWho s w) actors h hb (by rw [hp])
        have hval := hvalid (h, a) ha
        cases hsome
        simpa using hval
      | none =>
        cases b with
        | true =>
          rw [ray_hit_of_scan_own qb s w actors ign hit hfind hp] at hsome
          exact absurd hsome (by simp)
        | false =>
          rw [ray_hit_of_scan_env qb s w actors ign hit hfind hp] at hsome
          cases hsome
          simp [environmentHit, Handle.NONE]

/-- C2: no self-attribution — whenever `ray_hit` returns a `Hit` whose actor
field is set (non-`NONE`), the `who` field differs from the `actor` field,
for every shooter variant. -/
theorem ray_hit_no_self_attribution (qb : List Intersection) (s : Shooter)
    (w : Handle → Handle) (actors : List (Handle × Actor)) (ign : Handle)
    (ht : Hit) (hsome : ray_hit qb s w actors ign = some ht)
    (hactor : ht.actor ≠ Handle.NONE) : ht.who ≠ ht.actor := by
  cases hfind : qb.find? (fun i => i.collider ≠ ign) with
  | none =>
    rw [ray_hit_of_find_none qb s w actors ign hfind] at hsome
    exact absurd hsome (by simp)
  | some hit =>
    rcases hp : scanActors hit.collider (shooterWho s w) actors with ⟨b, o⟩
    cases o with
    | some pr =>
      obtain ⟨h, hb⟩ := pr
      rw [ray_hit_of_scan_some qb s w actors ign hit h hb hfind (by rw [hp])]
        at hsome
      obtain ⟨a, _, _, hne⟩ :=
        scanActors_snd_some hit.collider (shooterWho s w) actors h hb (by rw [hp])
      cases hsome
      exact fun hh => hne hh.symm
    | none =>
      cases b with
      | true =>
        rw [ray_hit_of_scan_own qb s w actors ign hit hfind hp] at hsome
        exact absurd hsome (by simp)
      | false =>
        rw [ray_hit_of_scan_env qb s w actors ign hit hfind hp] at hsome
        cases hsome
        exact absurd rfl hactor

/-- A concrete query buffer: one intersection on collider 1. -/
def sampleBuffer : List Intersection := [⟨1, ⟨0, 0, 0⟩, ⟨0, 1, 0⟩, 0⟩]

/-- The concrete `Hit` that `ray_hit` returns on `sampleBuffer` when actor 3
owns collider 1 as a hit box and the shooter is actor 5. -/
def sampleHit : Hit :=
  { actor := 3, who := 5, position := ⟨0, 0, 0⟩, normal := ⟨0, 1, 0⟩
    collider := 1, feature := 0, hit_box := some ⟨1⟩
    query_buffer := sampleBuffer }

/-- Witness for C1: on a concrete cast (actor 3 owns the struck collider,
shooter actor 5 does not), the actor-field/hit-box iff holds on the result. -/
theorem ray_hit_resolution_witness :
    sampleHit.actor ≠ Handle.NONE ↔ sampleHit.hit_box.isSome :=
  (ray_hit_resolution sampleBuffer (.actor 5) (fun _ => 0) [(3, ⟨[⟨1⟩]⟩)] 2
    (by decide)).2.2 sampleHit (by decide)

/-- Witness for C2: on the same concrete cast the returned `Hit` has
`who = 5 ≠ 3 = actor`. -/
theorem ray_hit_no_self_attribution_witness : sampleHit.who ≠ sampleHit.actor :=
  ray_hit_no_self_attribution sampleBuffer (.actor 5) (fun _ => 0)
    [(3, ⟨[⟨1⟩]⟩)] 2 sampleHit (by decide) (by decide)

/-- `GameTime` — elapsed seconds since start and per-frame delta. -/
structure GameTime where
  elapsed : ℚ
  delta : ℚ
deriving DecidableEq, Repr

/-- fyrox `SmoothAngle` (external math helper): an angle easing toward a
target with bounded angular speed.  The claims under verification depend
only on `set_target` and on `update` being a pure field update. -/
structure SmoothAngle where
  angle : ℚ
  target : ℚ
  speed : ℚ
deriving DecidableEq, Repr

/-- `SmoothAngle::set_target`. -/
def SmoothAngle.set_target (s : SmoothAngle) (t : ℚ) : SmoothAngle :=
  { s with target := t }

/-- `SmoothAngle::update(dt)` — move the angle toward the target by at most
`speed * dt`. -/
def SmoothAngle.update (s : SmoothAngle) (dt : ℚ) : SmoothAngle :=
  if |s.target - s.angle| ≤ s.speed * dt then { s with angle := s.target }
  else if s.angle < s.target then { s with angle := s.angle + s.speed * dt }
  else { s with angle := s.angle - s.speed * dt }

/-- `ItemKind` — the inventory item kinds the verified code touches. -/
inductive ItemKind where
  | Medpack
  | Ammo
  | Grenade
deriving DecidableEq, Repr

/-- `WeaponKind` — the closed set of weapon kinds (as matched in
`Player::current_weapon_kind`). -/
inductive WeaponKind where
  | M4
  | Ak47
  | PlasmaRifle
  | RailGun
  | Glock
deriving DecidableEq, Repr

/-- `ProjectileKind` — only the grenade variant is referenced by the sources
under verification; the remaining variants are collapsed into `Other`. -/
inductive ProjectileKind where
  | Grenade
  | Other (k : Nat)
deriving DecidableEq, Repr

/-- The outbound messages the verified code produces (`message::Message`),
restricted to the variants the embedded functions emit. -/
inductive Message where
  | PlaySound (sound : Nat) (position : Vec3)
  | ShootWeapon (weapon : Handle) (direction : Option Vec3)
  | CreateProjectile (kind : ProjectileKind) (position : Vec3)
      (direction : Vec3) (initial_velocity : Vec3) (shooter : Shooter)
  | ShootRay (shooter : Shooter) (rayFrom : Vec3) (rayTo : Vec3) (damage : ℚ)
  | ShowItemDisplay (item : ItemKind) (count : Nat)
  | PickUpItem (actor : Handle) (item : Handle)
  | SyncInventory
  | SyncJournal
  | CallElevator (elevator : Handle) (floor : Nat)
  | SetCallButtonFloor (call_button : Handle) (floor : Nat)
  | SwitchFlashLight (weapon : Handle)
  | GrabWeapon (kind : WeaponKind) (actor : Handle)
deriving DecidableEq, Repr

/-- Modelled from the spec: the player `Inventory`
(src/game/src/inventory.rs is not among the provided sources); it holds a
count per item kind.  The claims only involve medpacks, ammo and grenades. -/
structure Inventory where
  medpacks : Nat
  ammo : Nat
  grenades : Nat
deriving DecidableEq, Repr

/-- `Inventory::item_count(kind)`. -/
def Inventory.item_count (inv : Inventory) : ItemKind → Nat
  | .Medpack => inv.medpacks
  | .Ammo => inv.ammo
  | .Grenade => inv.grenades

/-- Replace the count of one item kind. -/
def Inventory.setCount (inv : Inventory) (kind : ItemKind) (n : Nat) :
    Inventory :=
  match kind with
  | .Medpack => { inv with medpacks := n }
  | .Ammo => { inv with ammo := n }
  | .Grenade => { inv with grenades := n }

/-- Modelled from the spec: `Inventory::try_extract_exact_items(kind, n)`
is atomic — it either returns `n` and the count of `kind` decreases by
exactly `n`, or it returns less than `n` (here: the insufficient current
count) and the inventory is unchanged.  Only the comparison of the returned
count with `n` is observed by the verified callers. -/
def Inventory.try_extract_exact_items (inv : Inventory) (kind : ItemKind)
    (n : Nat) : Nat × Inventory :=
  if n ≤ inv.item_count kind then
    (n, inv.setCount kind (inv.item_count kind - n))
  else (inv.item_count kind, inv)

/-- `WeaponProjectile` — a weapon definition either spawns a physical
projectile or performs an instant ray hit-scan. -/
inductive WeaponProjectile where
  | projectile (kind : ProjectileKind)
  | ray (damage : ℚ)
deriving DecidableEq, Repr

/-- The fields of the static `WeaponDefinition` the verified code reads. -/
structure WeaponDefinition where
  shoot_interval : ℚ
  ammo_consumption_per_shot : Nat
  projectile : WeaponProjectile
deriving DecidableEq, Repr

/-- The mutable runtime state of a `Weapon` that the verified code touches. -/
structure Weapon where
  kind : WeaponKind
  last_shot_time : ℚ
  owner : Handle
  muzzle_flash : Handle
  muzzle_flash_timer : ℚ
  definition : WeaponDefinition
deriving DecidableEq, Repr

/-- `Weapon::can_shoot(time)` — true iff the elapsed time since the last
shot is at least the definition's fire interval. -/
def Weapon.can_shoot (w : Weapon) (time : GameTime) : Bool :=
  w.definition.shoot_interval ≤ time.elapsed - w.last_shot_time

/-- `Weapon::shoot`.  Stamps the last-shot timestamp, plays a randomly
selected shot sound (the selection is external randomness, supplied as
`soundChoice`; it is `some` exactly when the definition's sound pool is
nonempty), re-arms the 75 ms muzzle-flash timer when a muzzle flash node
exists, and emits either a `CreateProjectile` or a `ShootRay` message
according to the definition's projectile mode.  The normalized shot
direction is supplied by the caller (float normalization is external
`nalgebra` math); texture randomization and graph visibility flips carry no
verified state and are omitted. -/
def Weapon.shoot (w : Weapon) (self_handle : Handle) (time : GameTime)
    (position : Vec3) (direction : Vec3) (soundChoice : Option Nat) :
    Weapon × List Message :=
  let w' : Weapon :=
    { w with
      last_shot_time := time.elapsed
      muzzle_flash_timer :=
        if w.muzzle_flash ≠ Handle.NONE then 3 / 40 else w.muzzle_flash_timer }
  let soundMsgs : List Message :=
    match soundChoice with
    | some snd => [Message.PlaySound snd position]
    | none => []
  let fireMsg : Message :=
    match w.definition.projectile with
    | .projectile pk =>
      Message.CreateProjectile pk position direction ⟨0, 0, 0⟩
        (Shooter.weapon self_handle)
    | .ray dmg =>
      Message.ShootRay (Shooter.weapon self_handle) position
        (position.add (direction.scale 1000)) dmg
  (w', soundMsgs ++ [fireMsg])

/-- The slice of player state read and written by
`Player::update_shooting`. -/
structure ShootingState where
  v_recoil : SmoothAngle
  h_recoil : SmoothAngle
  weapons : List Handle
  current_weapon : Nat
  inventory : Inventory
  shoot : Bool
  aimActive : Bool
deriving DecidableEq, Repr

/-- The outcome of one `update_shooting` call: the updated player state,
the emitted messages, and the visibility values written to the current
weapon's laser sight and to the weapon display (`none` when no current
weapon exists and neither is touched). -/
structure ShootingResult where
  state : ShootingState
  msgs : List Message
  laser_visible : Option Bool
  display_visible : Option Bool
deriving DecidableEq, Repr

/-- `Player::update_shooting`.  Decays both recoil angles, then — when a
current weapon exists — either drives the aiming visuals and, if the shoot
flag is held, the cooldown passes and the exact ammo cost can be extracted,
emits a `ShootWeapon` message and kicks the recoil targets (the randomized
targets `vT`/`hT` are external randomness, supplied as arguments); or hides
the aiming visuals when the combat machine is not in the aim state.  The
camera-shake request and the ammo-indicator offset write are external
display effects carrying no verified state and are omitted. -/
def update_shooting (st : ShootingState) (wc : Handle → Weapon)
    (time : GameTime) (vT hT : ℚ) : ShootingResult :=
  let st0 : ShootingState :=
    { st with
      v_recoil := st.v_recoil.update time.delta
      h_recoil := st.h_recoil.update time.delta }
  match st0.weapons[st0.current_weapon]? with
  | none => { state := st0, msgs := [], laser_visible := none
              display_visible := none }
  | some wh =>
    if st0.aimActive then
      let weapon := wc wh
      if st0.shoot && weapon.can_shoot time then
        let ammo_per_shot := weapon.definition.ammo_consumption_per_shot
        let ex := st0.inventory.try_extract_exact_items ItemKind.Ammo
          ammo_per_shot
        if ex.1 = ammo_per_shot then
          { state :=
              { st0 with
                inventory := ex.2
                v_recoil := st0.v_recoil.set_target vT
                h_recoil := st0.h_recoil.set_target hT }
            msgs := [Message.ShootWeapon wh none]
            laser_visible := some true, display_visible := some true }
        else
          { state := { st0 with inventory := ex.2 }, msgs := []
            laser_visible := some true, display_visible := some true }
      else
        { state := st0, msgs := [], laser_visible := some true
          display_visible := some true }
    else
      { state := st0, msgs := [], laser_visible := some false
        display_visible := some false }

/-- The authored toss-grenade signal identifier
(`UpperBodyMachine::TOSS_GRENADE_SIGNAL`); the verified code only compares
it for equality, so its concrete value is immaterial. -/
def TOSS_GRENADE_SIGNAL : Nat := 1

/-- One drained animation event (`fyrox::animation::AnimationEvent`). -/
structure AnimationEvent where
  signal_id : Nat
deriving DecidableEq, Repr

/-- `Player::handle_toss_grenade_signal`: drains the toss-grenade
animation's event queue; for each event carrying the toss-grenade signal,
if exactly one grenade can be extracted from the inventory, emits a grenade
`CreateProjectile` message at the weapon-pivot position along the camera
look direction with initial velocity `direction * 15`. -/
def handle_toss_grenade_signal (events : List AnimationEvent)
    (self_handle : Handle) (inv : Inventory) (position direction : Vec3) :
    List Message × Inventory :=
  match events with
  | [] => ([], inv)
  | e :: rest =>
    if e.signal_id = TOSS_GRENADE_SIGNAL then
      let ex := inv.try_extract_exact_items ItemKind.Grenade 1
      if ex.1 = 1 then
        let r := handle_toss_grenade_signal rest self_handle ex.2 position
          direction
        (Message.CreateProjectile ProjectileKind.Grenade position direction
          (direction.scale 15) (Shooter.actor self_handle) :: r.1, r.2)
      else
        let r := handle_toss_grenade_signal rest self_handle ex.2 position
          direction
        (r.1, r.2)
    else handle_toss_grenade_signal rest self_handle inv position direction

/-- A concrete weapon with fire interval 0.1 s, last fired at t = 0. -/
def sampleWeapon : Weapon :=
  { kind := .M4, last_shot_time := 0, owner := 0, muzzle_flash := 0
    muzzle_flash_timer := 0
    definition :=
      { shoot_interval := 1 / 10, ammo_consumption_per_shot := 1
        projectile := .ray 10 } }

/-- C4: `can_shoot(time)` is true iff `time.elapsed` minus the last-shot
timestamp is ≥ the definition's fire interval, and `shoot` stamps the
last-shot timestamp to the current elapsed time; for a weapon with fire
interval 0.1 s last fired at t = 0, `can_shoot` is false at t = 0.05,
true at t = 0.11, and true at exactly t = 0.1 (the comparison is ≥). -/
theorem can_shoot_shoot_spec :
    (∀ (w : Weapon) (t : GameTime),
      w.can_shoot t = true ↔
        w.definition.shoot_interval ≤ t.elapsed - w.last_shot_time)
    ∧ (∀ (w : Weapon) (sh : Handle) (t : GameTime) (pos dir : Vec3)
        (sc : Option Nat),
        ((w.shoot sh t pos dir sc).1).last_shot_time = t.elapsed)
    ∧ sampleWeapon.can_shoot ⟨1 / 20, 0⟩ = false
    ∧ sampleWeapon.can_shoot ⟨11 / 100, 0⟩ = true
    ∧ sampleWeapon.can_shoot ⟨1 / 10, 0⟩ = true := by
  refine ⟨?_, ?_, by norm_num [Weapon.can_shoot, sampleWeapon],
    by norm_num [Weapon.can_shoot, sampleWeapon],
    by norm_num [Weapon.can_shoot, sampleWeapon]⟩
  · intro w t
    simp [Weapon.can_shoot]
  · intro w sh t pos dir sc
    simp [Weapon.shoot]

/-- Atomicity of the (spec-modelled) inventory extraction: either the full
amount is returned and the count of the kind drops by exactly `n`, or less
than `n` is returned and the inventory is unchanged. -/
theorem try_extract_exact_items_atomic (inv : Inventory) (kind : ItemKind)
    (n : Nat) :
    ((inv.try_extract_exact_items kind n).1 = n ∧
      ((inv.try_extract_exact_items kind n).2).item_count kind =
        inv.item_count kind - n)
    ∨ ((inv.try_extract_exact_items kind n).1 < n ∧
      (inv.try_extract_exact_items kind n).2 = inv) := by
  by_cases h : n ≤ inv.item_count kind
  · left
    simp only [Inventory.try_extract_exact_items, if_pos h]
    cases kind <;> simp [Inventory.setCount, Inventory.item_count]
  · right
    have hx : inv.try_extract_exact_items kind n = (inv.item_count kind, inv) := by
      simp [Inventory.try_extract_exact_items, if_neg h]
    rw [hx]
    exact ⟨Nat.lt_of_not_le h, rfl⟩

/-- If the extraction did not return the full amount, the inventory is
unchanged. -/
theorem try_extract_ne_unchanged (inv : Inventory) (kind : ItemKind) (n : Nat)
    (h : (inv.try_extract_exact_items kind n).1 ≠ n) :
    (inv.try_extract_exact_items kind n).2 = inv := by
  rcases try_extract_exact_items_atomic inv kind n with ⟨h1, _⟩ | ⟨_, h2⟩
  · exact absurd h1 h
  · exact h2

/-- C3: `update_shooting` emits a `ShootWeapon` message iff a current weapon
exists, the combat machine is in the aim state, the shoot flag is held, the
weapon's cooldown has passed, and extracting exactly
`ammo_consumption_per_shot` ammo returns that full amount; on a shot the
recoil targets are re-kicked and the ammo is consumed; whenever no shot is
emitted the inventory is unchanged (no partial consumption). -/
theorem update_shooting_gating (st : ShootingState) (wc : Handle → Weapon)
    (time : GameTime) (vT hT : ℚ) :
    ((update_shooting st wc time vT hT).msgs ≠ [] ↔
      ∃ wh, st.weapons[st.current_weapon]? = some wh ∧
        st.aimActive = true ∧ st.shoot = true ∧
        (wc wh).can_shoot time = true ∧
        (st.inventory.try_extract_exact_items ItemKind.Ammo
            (wc wh).definition.ammo_consumption_per_shot).1 =
          (wc wh).definition.ammo_consumption_per_shot)
    ∧ (∀ wh, st.weapons[st.current_weapon]? = some wh →
        (update_shooting st wc time vT hT).msgs ≠ [] →
        (update_shooting st wc time vT hT).msgs =
            [Message.ShootWeapon wh none] ∧
          (update_shooting st wc time vT hT).state.v_recoil.target = vT ∧
          (update_shooting st wc time vT hT).state.h_recoil.target = hT ∧
          (update_shooting st wc time vT hT).state.inventory =
            (st.inventory.try_extract_exact_items ItemKind.Ammo
              (wc wh).definition.ammo_consumption_per_shot).2)
    ∧ ((update_shooting st wc time vT hT).msgs = [] →
        (update_shooting st wc time vT hT).state.inventory = st.inventory) := by
  cases hg : st.weapons[st.current_weapon]? with
  | none =>
    have hr : (update_shooting st wc time vT hT).msgs = [] ∧
        (update_shooting st wc time vT hT).state.inventory = st.inventory := by
      simp [update_shooting, hg]
    refine ⟨?_, ?_, fun _ => hr.2⟩
    · simp [hr.1]
    · intro wh hwh
      cases hwh
  | some wh =>
    by_cases ha : st.aimActive = true
    · by_cases hsh : st.shoot = true
      · by_cases hcan : (wc wh).can_shoot time = true
        · set n := (wc wh).definition.ammo_consumption_per_shot with hn
          by_cases hx :
              (st.inventory.try_extract_exact_items ItemKind.Ammo n).1 = n
          · have hr : (update_shooting st wc time vT hT).msgs =
                  [Message.ShootWeapon wh none] ∧
                (update_shooting st wc time vT hT).state.v_recoil.target
                  = vT ∧
                (update_shooting st wc time vT hT).state.h_recoil.target
                  = hT ∧
                (update_shooting st wc time vT hT).state.inventory =
                  (st.inventory.try_extract_exact_items ItemKind.Ammo n).2 := by
              simp [update_shooting, hg, ha, hsh, hcan, hx,
                SmoothAngle.set_target]
            refine ⟨?_, ?_, ?_⟩
            · simp only [hr.1, ne_eq, List.cons_ne_self, not_false_iff,
                true_iff]
              exact ⟨wh, rfl, ha, hsh, hcan, hx⟩
            · intro wh2 hwh2 _
              obtain rfl : wh = wh2 := by injection hwh2
              exact hr
            · intro hc
              rw [hr.1] at hc
              cases hc
          · have hr : (update_shooting st wc time vT hT).msgs = [] ∧
                (update_shooting st wc time vT hT).state.inventory =
                  (st.inventory.try_extract_exact_items ItemKind.Ammo n).2 := by
              simp [update_shooting, hg, ha, hsh, hcan, hx]
            refine ⟨?_, ?_, ?_⟩
            · simp only [hr.1, ne_eq, not_true, false_iff]
              rintro ⟨wh2, hwh2, -, -, -, hx2⟩
              obtain rfl : wh = wh2 := by injection hwh2
              exact hx hx2
            · intro wh2 _ hne
              exact absurd hr.1 hne
            · intro _
              rw [hr.2]
              exact try_extract_ne_unchanged st.inventory ItemKind.Ammo n hx
        · have hr : (update_shooting st wc time vT hT).msgs = [] ∧
              (update_shooting st wc time vT hT).state.inventory =
                st.inventory := by
            simp [update_shooting, hg, ha, hsh, hcan]
          refine ⟨?_, ?_, fun _ => hr.2⟩
          · simp only [hr.1, ne_eq, not_true, false_iff]
            rintro ⟨wh2, hwh2, -, -, hcan2, -⟩
            obtain rfl : wh = wh2 := by injection hwh2
            exact hcan hcan2
          · intro wh2 _ hne
            exact absurd hr.1 hne
      · have hr : (update_shooting st wc time vT hT).msgs = [] ∧
            (update_shooting st wc time vT hT).state.inventory =
              st.inventory := by
          simp [update_shooting, hg, ha, hsh]
        refine ⟨?_, ?_, fun _ => hr.2⟩
        · simp only [hr.1, ne_eq, not_true, false_iff]
          rintro ⟨-, -, -, hsh2, -, -⟩
          exact hsh hsh2
        · intro wh2 _ hne
          exact absurd hr.1 hne
    · have hr : (update_shooting st wc time vT hT).msgs = [] ∧
          (update_shooting st wc time vT hT).state.inventory =
            st.inventory := by
        simp [update_shooting, hg, ha]
      refine ⟨?_, ?_, fun _ => hr.2⟩
      · simp only [hr.1, ne_eq, not_true, false_iff]
        rintro ⟨-, -, ha2, -, -, -⟩
        exact ha ha2
      · intro wh2 _ hne
        exact absurd hr.1 hne

/-- A concrete shooting state: one weapon (handle 7), aiming, shoot held,
100 ammo. -/
def sampleShootState : ShootingState :=
  { v_recoil := ⟨0, 0, 3 / 2⟩, h_recoil := ⟨0, 0, 3 / 2⟩
    weapons := [7], current_weapon := 0
    inventory := ⟨2, 100, 2⟩, shoot := true, aimActive := true }

/-- Witness for C3: in the concrete state, with the cooldown passed, one
`ShootWeapon` message is emitted, the recoil targets are re-kicked and
exactly one ammo is consumed. -/
theorem update_shooting_gating_witness :
    (update_shooting sampleShootState (fun _ => sampleWeapon) ⟨1, 1 / 60⟩
        (1 / 100) (1 / 50)).msgs = [Message.ShootWeapon 7 none] ∧
      (update_shooting sampleShootState (fun _ => sampleWeapon) ⟨1, 1 / 60⟩
          (1 / 100) (1 / 50)).state.v_recoil.target = 1 / 100 ∧
      (update_shooting sampleShootState (fun _ => sampleWeapon) ⟨1, 1 / 60⟩
          (1 / 100) (1 / 50)).state.h_recoil.target = 1 / 50 ∧
      (update_shooting sampleShootState (fun _ => sampleWeapon) ⟨1, 1 / 60⟩
          (1 / 100) (1 / 50)).state.inventory =
        (sampleShootState.inventory.try_extract_exact_items ItemKind.Ammo
          (sampleWeapon.definition.ammo_consumption_per_shot)).2 :=
  (update_shooting_gating sampleShootState (fun _ => sampleWeapon) ⟨1, 1 / 60⟩
      (1 / 100) (1 / 50)).2.1 7 rfl
    (by norm_num [update_shooting, sampleShootState, sampleWeapon,
      Weapon.can_shoot, Inventory.try_extract_exact_items,
      Inventory.item_count, Inventory.setCount])

/-- C5: draining a toss-grenade animation signal consumes exactly one
grenade and emits exactly one grenade `CreateProjectile` message at the
weapon-pivot position along the camera look direction (initial velocity
`direction * 15`) when the inventory holds at least one grenade; with zero
grenades nothing is emitted and the inventory is unchanged. -/
theorem toss_grenade_signal_spec (e : AnimationEvent) (self : Handle)
    (inv : Inventory) (position direction : Vec3)
    (hsig : e.signal_id = TOSS_GRENADE_SIGNAL) :
    (1 ≤ inv.grenades →
      handle_toss_grenade_signal [e] self inv position direction =
        ([Message.CreateProjectile ProjectileKind.Grenade position direction
            (direction.scale 15) (Shooter.actor self)],
          { inv with grenades := inv.grenades - 1 }))
    ∧ (inv.grenades = 0 →
      handle_toss_grenade_signal [e] self inv position direction =
        ([], inv)) := by
  constructor
  · intro hge
    have hext : inv.try_extract_exact_items ItemKind.Grenade 1 =
        (1, { inv with grenades := inv.grenades - 1 }) := by
      simp [Inventory.try_extract_exact_items, Inventory.item_count,
        Inventory.setCount, hge]
    simp [handle_toss_grenade_signal, hsig, hext]
  · intro hz
    have hext : inv.try_extract_exact_items ItemKind.Grenade 1 = (0, inv) := by
      simp [Inventory.try_extract_exact_items, Inventory.item_count, hz]
    simp [handle_toss_grenade_signal, hsig, hext]

/-- Witness for C5: with exactly one grenade the toss signal spawns the
grenade projectile and empties the grenade slot; with zero grenades the
same signal does nothing. -/
theorem toss_grenade_signal_witness :
    handle_toss_grenade_signal [⟨TOSS_GRENADE_SIGNAL⟩] 4 ⟨0, 0, 1⟩
        ⟨0, 0, 0⟩ ⟨0, 0, 1⟩ =
      ([Message.CreateProjectile ProjectileKind.Grenade ⟨0, 0, 0⟩ ⟨0, 0, 1⟩
          ((⟨0, 0, 1⟩ : Vec3).scale 15) (Shooter.actor 4)], ⟨0, 0, 0⟩)
    ∧ handle_toss_grenade_signal [⟨TOSS_GRENADE_SIGNAL⟩] 4 ⟨0, 0, 0⟩
        ⟨0, 0, 0⟩ ⟨0, 0, 1⟩ = ([], ⟨0, 0, 0⟩) :=
  ⟨(toss_grenade_signal_spec ⟨TOSS_GRENADE_SIGNAL⟩ 4 ⟨0, 0, 1⟩ ⟨0, 0, 0⟩
      ⟨0, 0, 1⟩ rfl).1 (by decide),
    (toss_grenade_signal_spec ⟨TOSS_GRENADE_SIGNAL⟩ 4 ⟨0, 0, 0⟩ ⟨0, 0, 0⟩
      ⟨0, 0, 1⟩ rfl).2 rfl⟩

/-- `level::trail::ShotTrail` — a transient visual with a backing scene
node, a current lifetime and a maximum lifetime. -/
structure ShotTrail where
  node : Handle
  lifetime : ℚ
  max_lifetime : ℚ
deriving DecidableEq, Repr

/-- `ShotTrail::new` — lifetime starts at zero. -/
def ShotTrail.new (node : Handle) (max_lifetime : ℚ) : ShotTrail :=
  ⟨node, 0, max_lifetime⟩

/-- Rust's saturating float-to-`u8` cast: negative values clamp to 0,
values above 255 clamp to 255, otherwise truncate. -/
def satCastU8 (q : ℚ) : Nat :=
  if q < 0 then 0 else if 255 < q then 255 else q.floor.toNat

/-- The per-trail lifetime advance:
`trail.lifetime = (trail.lifetime + dt).min(trail.max_lifetime)`. -/
def ShotTrail.advance (t : ShotTrail) (dt : ℚ) : ShotTrail :=
  { t with lifetime := min (t.lifetime + dt) t.max_lifetime }

/-- The alpha written to the trail's mesh material or sprite tint:
`(255.0 * (1.0 - lifetime / max_lifetime)) as u8`.  (ℚ division; the
container is only ever fed positive maxima, where this agrees with the
float computation.) -/
def ShotTrail.alpha (t : ShotTrail) : Nat :=
  satCastU8 (255 * (1 - t.lifetime / t.max_lifetime))

/-- `ShotTrailContainer::update(dt)` over the trail list (the `retain_mut`
loop): returns the retained trails, the `(node, alpha)` writes applied to
the trails' mesh materials / sprite tints, and the scene nodes removed.
Whether a write lands on a material or a tint is the external polymorphic
node cast; both receive the same alpha. -/
def ShotTrailContainer.update (container : List ShotTrail) (dt : ℚ) :
    List ShotTrail × List (Handle × Nat) × List Handle :=
  match container with
  | [] => ([], [], [])
  | t :: rest =>
    let t' := t.advance dt
    let r := ShotTrailContainer.update rest dt
    if t'.lifetime < t'.max_lifetime then
      (t' :: r.1, (t.node, t'.alpha) :: r.2.1, r.2.2)
    else
      (r.1, (t.node, t'.alpha) :: r.2.1, t.node :: r.2.2)

/-- An advanced trail's lifetime never exceeds its maximum. -/
theorem ShotTrail.advance_le (t : ShotTrail) (dt : ℚ) :
    (t.advance dt).lifetime ≤ t.max_lifetime :=
  min_le_right _ _

/-- C9: `ShotTrailContainer::update(dt)` advances every trail's lifetime to
`min(lifetime + dt, max_lifetime)`, applies the linear-fade alpha
`(255 * (1 - lifetime/max)) as u8` to every trail's node, retains exactly
the trails whose updated lifetime is still below the maximum and removes
the backing nodes of the rest; a trail is removed exactly when its updated
lifetime reaches the maximum, and every retained trail has lifetime
strictly less than its maximum. -/
theorem shot_trail_update_spec (container : List ShotTrail) (dt : ℚ) :
    ShotTrailContainer.update container dt =
      ((container.map (fun t => t.advance dt)).filter
          (fun t => t.lifetime < t.max_lifetime),
        container.map (fun t => (t.node, (t.advance dt).alpha)),
        ((container.map (fun t => t.advance dt)).filter
          (fun t => ¬t.lifetime < t.max_lifetime)).map (fun t => t.node))
    ∧ (∀ t ∈ (ShotTrailContainer.update container dt).1,
        t.lifetime < t.max_lifetime)
    ∧ (∀ t ∈ container,
        (¬(t.advance dt).lifetime < t.max_lifetime ↔
          (t.advance dt).lifetime = t.max_lifetime)) := by
  refine ⟨?_, ?_, ?_⟩
  · induction container with
    | nil => rfl
    | cons t rest ih =>
      by_cases hl : (t.advance dt).lifetime < (t.advance dt).max_lifetime
      · simp [ShotTrailContainer.update, hl, ih, ShotTrail.advance]
        simp [ShotTrail.advance] at hl
        simp [hl]
      · simp [ShotTrailContainer.update, hl, ih, ShotTrail.advance]
        simp [ShotTrail.advance] at hl
        simp [hl]
  · induction container with
    | nil => intro t ht; cases ht
    | cons t rest ih =>
      intro s hs
      by_cases hl : (t.advance dt).lifetime < (t.advance dt).max_lifetime
      · simp only [ShotTrailContainer.update, if_pos hl] at hs
        rcases List.mem_cons.1 hs with rfl | hs
        · simpa [ShotTrail.advance] using hl
        · exact ih s hs
      · simp only [ShotTrailContainer.update, if_neg hl] at hs
        exact ih s hs
  · intro t _
    constructor
    · intro h
      exact le_antisymm (ShotTrail.advance_le t dt) (not_lt.1 h)
    · intro h
      rw [h]
      exact lt_irrefl _

/-- Witness for C9: a two-trail container (one expiring, one not) under
`dt = 1/2` retains only the fresh trail, which is strictly below its
maximum lifetime. -/
theorem shot_trail_update_spec_witness :
    (⟨3, 1 / 2, 2⟩ : ShotTrail).lifetime <
      (⟨3, 1 / 2, 2⟩ : ShotTrail).max_lifetime :=
  (shot_trail_update_spec [ShotTrail.new 8 (1 / 4), ShotTrail.new 3 2]
      (1 / 2)).2.1 ⟨3, 1 / 2, 2⟩
    (by norm_num [ShotTrailContainer.update, ShotTrail.new,
      ShotTrail.advance, ShotTrail.alpha, satCastU8])

/-- `player::InputController` — the input snapshot rebuilt incrementally as
discrete events arrive. -/
structure InputController where
  walk_forward : Bool
  walk_backward : Bool
  walk_left : Bool
  walk_right : Bool
  jump : Bool
  yaw : ℚ
  pitch : ℚ
  aim : Bool
  toss_grenade : Bool
  shoot : Bool
  run : Bool
  action : Bool
  cursor_up : Bool
  cursor_down : Bool
deriving DecidableEq, Repr

/-- The all-false, zero-angle input snapshot (`InputController::default`). -/
def idleController : InputController :=
  { walk_forward := false, walk_backward := false, walk_left := false
    walk_right := false, jump := false, yaw := 0, pitch := 0, aim := false
    toss_grenade := false, shoot := false, run := false, action := false
    cursor_up := false, cursor_down := false }

/-- `Player::calculate_model_angle` — the aim-state-dependent 8-way
input-direction-to-model-angle table, in degrees. -/
def calculate_model_angle (c : InputController) : ℚ :=
  if c.aim then
    if c.walk_left then
      if c.walk_backward then -45 else 45
    else if c.walk_right then
      if c.walk_backward then 45 else -45
    else 0
  else if c.walk_left then
    if c.walk_forward then 45
    else if c.walk_backward then 135
    else 90
  else if c.walk_right then
    if c.walk_forward then -45
    else if c.walk_backward then -135
    else -90
  else if c.walk_backward then 180
  else 0

/-- C8: the input-direction table — walking left while aiming and moving
backward yields -45°; walking left+forward while not aiming yields +45°;
with no directional input the angle is 0° regardless of aim. -/
theorem calculate_model_angle_table (c : InputController) :
    (c.aim = true → c.walk_left = true → c.walk_backward = true →
      calculate_model_angle c = -45)
    ∧ (c.aim = false → c.walk_left = true → c.walk_forward = true →
      calculate_model_angle c = 45)
    ∧ (c.walk_left = false → c.walk_right = false → c.walk_forward = false →
      c.walk_backward = false → calculate_model_angle c = 0) := by
  refine ⟨?_, ?_, ?_⟩
  · intro ha hl hb
    simp [calculate_model_angle, ha, hl, hb]
  · intro ha hl hf
    simp [calculate_model_angle, ha, hl, hf]
  · intro hl hr hf hb
    by_cases ha : c.aim = true <;>
      simp [calculate_model_angle, ha, hl, hr, hf, hb]

/-- Witness for C8: aiming while walking left and backward gives -45°. -/
theorem calculate_model_angle_table_witness :
    calculate_model_angle
      { idleController with
        aim := true, walk_left := true, walk_backward := true } = -45 :=
  (calculate_model_angle_table
    { idleController with
      aim := true, walk_left := true, walk_backward := true }).1 rfl rfl rfl

/-- The part of an `Item` read by `Player::check_items`: the global
position of its pivot, its kind and its stack size. -/
structure Item where
  position : Vec3
  kind : ItemKind
  stack_size : Nat
deriving DecidableEq, Repr

/-- The outcome of `check_items`: emitted messages, the (possibly cleared)
action flag, and the position the item display was moved to and shown at,
if any item was in range. -/
structure ItemsCheckResult where
  msgs : List Message
  action : Bool
  display : Option Vec3
deriving DecidableEq, Repr

/-- `Player::check_items`: scans the item container in order for the first
item within the 0.75-unit interaction radius (squared distances are
compared against 0.75², avoiding the square root); shows the pickup
display for it and, if the action flag is held, emits `PickUpItem` and
`SyncInventory` and clears the action flag; stops at that first item. -/
def check_items (self_handle : Handle) (self_position : Vec3) (action : Bool)
    (items : List (Handle × Item)) : ItemsCheckResult :=
  match items with
  | [] => { msgs := [], action := action, display := none }
  | (ih, it) :: rest =>
    if Vec3.distSq it.position self_position < (3 / 4) ^ 2 then
      { msgs := Message.ShowItemDisplay it.kind it.stack_size ::
          (if action then
            [Message.PickUpItem self_handle ih, Message.SyncInventory]
          else [])
        action := if action then false else action
        display := some (it.position.add ⟨0, 1 / 5, 0⟩) }
    else check_items self_handle self_position action rest

/-- `CallButtonKind` — `check_elevators` only distinguishes the floor
selector from the other kinds. -/
inductive CallButtonKind where
  | FloorSelector
  | Other
deriving DecidableEq, Repr

/-- The part of a `CallButton` read by `check_elevators`. -/
structure CallButton where
  position : Vec3
  kind : CallButtonKind
  floor : Nat
deriving DecidableEq, Repr

/-- The part of an `Elevator` read by `check_elevators`: node position,
number of floor points, current floor and attached call buttons. -/
structure Elevator where
  position : Vec3
  points : Nat
  current_floor : Nat
  call_buttons : List Handle
deriving Repr

/-- The elevator-floor half of `check_elevators`: standing within the
radius of the elevator node with the action flag held calls it to the
opposite end floor (only from the first or last floor). -/
def checkElevatorFloors (self_position : Vec3) (action : Bool) (eh : Handle)
    (e : Elevator) : List Message :=
  if Vec3.distSq e.position self_position < (3 / 4) ^ 2 ∧ action = true then
    let last_index := e.points - 1
    if e.current_floor = last_index then [Message.CallElevator eh 0]
    else if e.current_floor = 0 then [Message.CallElevator eh last_index]
    else []
  else []

/-- The call-button half of `check_elevators`: within the radius of a
button, cursor input retargets a floor selector
(`SetCallButtonFloor`, saturating at the ends), and the action flag calls
the elevator to the button's floor. -/
def checkCallButton (self_position : Vec3)
    (action cursor_up cursor_down : Bool) (points : Nat) (eh bh : Handle)
    (b : CallButton) : List Message :=
  if Vec3.distSq b.position self_position < (3 / 4) ^ 2 then
    (match b.kind with
      | .FloorSelector =>
        let new_floor : Option Nat :=
          if cursor_down then some (b.floor - 1)
          else if cursor_up then some (min (b.floor + 1) (points - 1))
          else none
        match new_floor with
        | some nf => [Message.SetCallButtonFloor bh nf]
        | none => []
      | .Other => []) ++
      (if action then [Message.CallElevator eh b.floor] else [])
  else []

/-- `Player::check_elevators`: iterates the elevator container (it takes
`&self` and never writes the controller); for each elevator, runs the
floor check and then every attached call button. -/
def check_elevators (self_position : Vec3)
    (action cursor_up cursor_down : Bool)
    (elevators : List (Handle × Elevator)) (buttons : Handle → CallButton) :
    List Message :=
  match elevators with
  | [] => []
  | (eh, e) :: rest =>
    checkElevatorFloors self_position action eh e ++
      (e.call_buttons.map (fun bh =>
        checkCallButton self_position action cursor_up cursor_down e.points
          eh bh (buttons bh))).flatten ++
      check_elevators self_position action cursor_up cursor_down rest buttons

/-- The fixed surroundings of the interaction scans across consecutive
frames: the player's handle and position, and the item/elevator/button
containers. -/
structure InteractionEnv where
  self_handle : Handle
  self_position : Vec3
  items : List (Handle × Item)
  elevators : List (Handle × Elevator)
  buttons : Handle → CallButton
  cursor_up : Bool
  cursor_down : Bool

/-- One frame of the player's interaction scans, in the order
`Player::update` runs them: `check_items` (which may clear the action
flag) followed by `check_elevators` (which reads the updated flag).
Returns the emitted messages and the action flag the next frame starts
from; while a key is held, no new input event arrives, so only
`check_items` ever writes the flag between frames. -/
def interactionFrame (env : InteractionEnv) (action : Bool) :
    List Message × Bool :=
  let ri := check_items env.self_handle env.self_position action env.items
  let me := check_elevators env.self_position ri.action env.cursor_up
    env.cursor_down env.elevators env.buttons
  (ri.msgs ++ me, ri.action)

/-- `n` consecutive frames of the interaction scans with the action key
held down (no intervening input events). -/
def runFrames (env : InteractionEnv) (action : Bool) : Nat → List Message
  | 0 => []
  | n + 1 =>
    (interactionFrame env action).1 ++
      runFrames env (interactionFrame env action).2 n

/-- Recognizes an item-pickup message. -/
def isPickUp : Message → Bool
  | Message.PickUpItem _ _ => true
  | _ => false

/-- Recognizes an elevator-call message. -/
def isCallElevator : Message → Bool
  | Message.CallElevator _ _ => true
  | _ => false

/-- With the action flag down, `check_items` emits no pickup and leaves the
flag down. -/
theorem check_items_flag_down (sh : Handle) (sp : Vec3)
    (items : List (Handle × Item)) :
    (check_items sh sp false items).action = false ∧
      (check_items sh sp false items).msgs.countP isPickUp = 0 := by
  induction items with
  | nil => exact ⟨rfl, rfl⟩
  | cons p rest ih =>
    obtain ⟨h0, it⟩ := p
    by_cases hd : Vec3.distSq it.position sp < (3 / 4) ^ 2
    · simp [check_items, hd, isPickUp, List.countP_cons]
    · simpa only [check_items, if_neg hd] using ih

/-- With the action flag held, `check_items` either fires exactly one
pickup and clears the flag, or fires none and leaves the flag held. -/
theorem check_items_flag_held (sh : Handle) (sp : Vec3)
    (items : List (Handle × Item)) :
    ((check_items sh sp true items).action = false ∧
      (check_items sh sp true items).msgs.countP isPickUp = 1) ∨
    ((check_items sh sp true items).action = true ∧
      (check_items sh sp true items).msgs.countP isPickUp = 0) := by
  induction items with
  | nil => right; exact ⟨rfl, rfl⟩
  | cons p rest ih =>
    obtain ⟨h0, it⟩ := p
    by_cases hd : Vec3.distSq it.position sp < (3 / 4) ^ 2
    · left
      simp [check_items, hd, isPickUp, List.countP_cons]
    · simpa only [check_items, if_neg hd] using ih

/-- The elevator-floor check emits no pickup messages. -/
theorem checkElevatorFloors_countP (sp : Vec3) (a : Bool) (eh : Handle)
    (e : Elevator) :
    (checkElevatorFloors sp a eh e).countP isPickUp = 0 := by
  by_cases h : Vec3.distSq e.position sp < (3 / 4) ^ 2 ∧ a = true
  · by_cases h1 : e.current_floor = e.points - 1
    · simp [checkElevatorFloors, h, h1, isPickUp, List.countP_cons]
    · by_cases h2 : e.current_floor = 0
      · rw [List.countP_eq_zero]
        simp only [checkElevatorFloors, if_pos h, if_neg h1, if_pos h2]
        intro m hm
        simp only [List.mem_singleton] at hm
        subst hm
        simp [isPickUp]
      · simp [checkElevatorFloors, h, h1, h2]
  · simp [checkElevatorFloors, h]

/-- The call-button check emits no pickup messages. -/
theorem checkCallButton_countP (sp : Vec3) (a cu cd : Bool) (pts : Nat)
    (eh bh : Handle) (b : CallButton) :
    (checkCallButton sp a cu cd pts eh bh b).countP isPickUp = 0 := by
  unfold checkCallButton
  split
  · cases b.kind <;> cases a <;> cases cu <;> cases cd <;>
      simp [isPickUp, List.countP_append, List.countP_cons]
  · rfl

/-- `check_elevators` emits no pickup messages. -/
theorem check_elevators_countP (sp : Vec3) (a cu cd : Bool)
    (elevs : List (Handle × Elevator)) (btns : Handle → CallButton) :
    (check_elevators sp a cu cd elevs btns).countP isPickUp = 0 := by
  induction elevs with
  | nil => rfl
  | cons p rest ih =>
    obtain ⟨eh, e⟩ := p
    simp only [check_elevators, List.countP_append, ih, Nat.add_zero,
      checkElevatorFloors_countP, Nat.zero_add]
    induction e.call_buttons with
    | nil => rfl
    | cons bh bs ihb =>
      simp only [List.map_cons, List.flatten_cons, List.countP_append,
        checkCallButton_countP, ihb, Nat.add_zero, Nat.zero_add]

/-- A frame entered with the flag down emits no pickups and keeps it down. -/
theorem frame_flag_down (env : InteractionEnv) :
    (interactionFrame env false).1.countP isPickUp = 0 ∧
      (interactionFrame env false).2 = false := by
  have h := check_items_flag_down env.self_handle env.self_position env.items
  constructor
  · simp [interactionFrame, List.countP_append, h.1, h.2,
      check_elevators_countP]
  · simp [interactionFrame, h.1]

/-- Frames entered with the flag down never emit a pickup. -/
theorem runFrames_flag_down (env : InteractionEnv) (n : Nat) :
    (runFrames env false n).countP isPickUp = 0 := by
  induction n with
  | zero => rfl
  | succ n ih =>
    have h := frame_flag_down env
    simp [runFrames, List.countP_append, h.1, h.2, ih]

/-- A concrete interaction environment: no items; one elevator (handle 2)
whose node is far away but whose single call button (floor 0, not a floor
selector) is exactly at the player's position. -/
def ceElevator : Elevator :=
  { position := ⟨9, 9, 9⟩, points := 2, current_floor := 0
    call_buttons := [5] }

/-- The concrete call button of `ceEnv`, at the player's position. -/
def ceButton : CallButton :=
  { position := ⟨0, 0, 0⟩, kind := .Other, floor := 0 }

def ceEnv : InteractionEnv :=
  { self_handle := 1, self_position := ⟨0, 0, 0⟩, items := []
    elevators := [(2, ceElevator)]
    buttons := fun _ => ceButton
    cursor_up := false, cursor_down := false }

/-- In `ceEnv` a held action flag produces one `CallElevator` per frame and
stays held. -/
theorem ceEnv_frame :
    interactionFrame ceEnv true = ([Message.CallElevator 2 0], true) := by
  norm_num [interactionFrame, check_items, check_elevators,
    checkElevatorFloors, checkCallButton, ceEnv, ceElevator, ceButton,
    Vec3.distSq]

/-- C6 counterexample: holding the action flag across two consecutive
frames, within the call button's 0.75-unit radius, fires the call-elevator
interaction more than once for the single press (the flag is still held
after the first frame) — it fires once per frame, not once per press. -/
theorem call_elevator_not_edge_triggered :
    1 < (runFrames ceEnv true 2).countP isCallElevator ∧
      (interactionFrame ceEnv true).2 = true := by
  constructor
  · simp [runFrames, ceEnv_frame, List.countP_append, List.countP_cons,
      isCallElevator]
  · rw [ceEnv_frame]

/-- C6 amended: item pickup is edge-triggered — over any number of frames
with no new press events, at most one pickup fires per press (the flag is
cleared when the pickup fires); elevator/call-button interaction is
level-triggered — in the concrete button environment it fires exactly once
per frame for as long as the flag is held. -/
theorem interaction_press_semantics (env : InteractionEnv) (action : Bool)
    (n : Nat) :
    (runFrames env action n).countP isPickUp ≤ 1 ∧
      (runFrames ceEnv true n).countP isCallElevator = n := by
  constructor
  · induction n generalizing action with
    | zero => exact Nat.zero_le 1
    | succ n ih =>
      cases action with
      | false =>
        rw [runFrames_flag_down]
        exact Nat.zero_le 1
      | true =>
        rcases check_items_flag_held env.self_handle env.self_position
            env.items with ⟨ha, hc⟩ | ⟨ha, hc⟩
        · simp [runFrames, interactionFrame, List.countP_append, ha, hc,
            check_elevators_countP, runFrames_flag_down]
        · simp only [runFrames, interactionFrame, List.countP_append, ha,
            hc, check_elevators_countP, Nat.add_zero, Nat.zero_add]
          exact ih true
  · induction n with
    | zero => rfl
    | succ n ih =>
      simp [runFrames, ceEnv_frame, List.countP_append, List.countP_cons,
        isCallElevator, ih, Nat.add_comm]

/-- Playback state of one animation as seen by the input handler:
`is_enabled`, playback position, `has_ended`. -/
structure Anim where
  enabled : Bool
  pos : ℚ
  ended : Bool
deriving DecidableEq, Repr

/-- `Animation::set_enabled`. -/
def Anim.set_enabled (a : Anim) (e : Bool) : Anim := { a with enabled := e }

/-- `Animation::rewind` — back to time zero; a rewound animation has not
ended. -/
def Anim.rewind (a : Anim) : Anim := { a with pos := 0, ended := false }

/-- The scene/animation/display state `Player::process_input_event` can
touch: the lower/upper jump clips, the grab, put-back and toss-grenade
clips, and the inventory/journal display visibilities. -/
structure PlayerScene where
  lower_jump : Anim
  upper_jump : Anim
  grab : Anim
  put_back : Anim
  toss : Anim
  inventory_visible : Bool
  journal_visible : Bool
deriving DecidableEq, Repr

/-- `RequiredWeapon` — the pending weapon-change request. -/
inductive RequiredWeapon where
  | none
  | next
  | previous
  | specific (kind : WeaponKind)
deriving DecidableEq, Repr

/-- `ControlScheme` — the logical-action-to-button binding table plus mouse
settings; buttons are compared by code. -/
structure ControlScheme where
  aim : Nat
  move_forward : Nat
  move_backward : Nat
  move_left : Nat
  move_right : Nat
  jump : Nat
  run : Nat
  flash_light : Nat
  grab_ak47 : Nat
  grab_m4 : Nat
  grab_plasma_gun : Nat
  grab_pistol : Nat
  next_weapon : Nat
  prev_weapon : Nat
  toss_grenade : Nat
  shoot : Nat
  cursor_up : Nat
  cursor_down : Nat
  action : Nat
  inventory : Nat
  journal : Nat
  mouse_sens : ℚ
  mouse_y_inverse : Bool
deriving Repr

/-- A raw input event after the window/device pattern match: either a
(button, pressed) pair — keyboard keys, mouse buttons, and wheel steps
(which always arrive as presses of the wheel pseudo-buttons) — or a mouse
motion delta; `other` covers events the handler ignores. -/
inductive InputEvent where
  | button (code : Nat) (pressed : Bool)
  | mouseMotion (dx dy : ℚ)
  | other
deriving DecidableEq, Repr

/-- The slice of player state `process_input_event` reads and writes. -/
structure PlayerInputState where
  controller : InputController
  weapon_change_direction : RequiredWeapon
  weapons : List Handle
  current_weapon : Nat
  grenades : Nat
deriving DecidableEq, Repr

/-- The outcome of one `process_input_event` call. -/
structure InputEventResult where
  state : PlayerInputState
  scene : PlayerScene
  msgs : List Message
deriving DecidableEq, Repr

/-- `90.0f32.to_radians()`, the pitch clamp bound — the exact f32 value
13176795 / 2²³. -/
def rad90 : ℚ := 13176795 / 8388608

/-- Modelled from the spec: `Character::current_weapon()`
(src/game/src/character.rs is not among the provided sources) — the handle
of the weapon at the current index, `Handle::NONE` when the index is out of
range. -/
def currentWeaponHandle (p : PlayerInputState) : Handle :=
  (p.weapons[p.current_weapon]?).getD Handle.NONE

/-- The `map_or(false, |k| k != kind)` guard of the specific-grab
branches. -/
def wantsDifferentKind (ck : Option WeaponKind) (kind : WeaponKind) : Bool :=
  match ck with
  | some k => k ≠ kind
  | none => false

/-- `Player::process_input_event`.  Mouse motion accumulates into yaw and
clamped pitch while computing the button mapping; a mapped button then runs
the first matching branch of the comparison chain (in source order); a
buffered weapon-change request finally rewinds the put-back clip and
disables and rewinds the grab clip. -/
def process_input_event (p : PlayerInputState) (scene : PlayerScene)
    (weaponKind : Handle → WeaponKind) (cs : ControlScheme)
    (ev : InputEvent) (dt : ℚ) : InputEventResult :=
  match ev with
  | .mouseMotion dx dy =>
    let mouse_sens := cs.mouse_sens * dt
    let pitch_direction : ℚ := if cs.mouse_y_inverse then -1 else 1
    { state :=
        { p with controller :=
          { p.controller with
            yaw := p.controller.yaw - dx * mouse_sens
            pitch := min (max (p.controller.pitch +
              pitch_direction * dy * mouse_sens) (-rad90)) rad90 } }
      scene := scene, msgs := [] }
  | .other => { state := p, scene := scene, msgs := [] }
  | .button button pressed =>
    let can_change_weapon : Prop :=
      p.weapon_change_direction = RequiredWeapon.none ∧
        scene.grab.ended = true ∧ 1 < p.weapons.length
    have : Decidable can_change_weapon :=
      inferInstanceAs (Decidable
        (p.weapon_change_direction = RequiredWeapon.none ∧
          scene.grab.ended = true ∧ 1 < p.weapons.length))
    let cw := currentWeaponHandle p
    let current_weapon_kind : Option WeaponKind :=
      if cw ≠ Handle.NONE then some (weaponKind cw) else none
    let chain :
        InputController × PlayerScene × List Message ×
          Option RequiredWeapon :=
      if button = cs.aim then
        ({ p.controller with aim := pressed },
          (if pressed then
            { scene with inventory_visible := false, journal_visible := false }
          else scene), [], Option.none)
      else if button = cs.move_forward then
        ({ p.controller with walk_forward := pressed }, scene, [],
          Option.none)
      else if button = cs.move_backward then
        ({ p.controller with walk_backward := pressed }, scene, [],
          Option.none)
      else if button = cs.move_left then
        ({ p.controller with walk_left := pressed }, scene, [], Option.none)
      else if button = cs.move_right then
        ({ p.controller with walk_right := pressed }, scene, [], Option.none)
      else if button = cs.jump then
        let can_jump := !scene.lower_jump.enabled || scene.lower_jump.ended
        let scene' :=
          if pressed = true ∧ can_jump = true then
            { scene with
              lower_jump := (scene.lower_jump.set_enabled true).rewind
              upper_jump := (scene.upper_jump.set_enabled true).rewind }
          else scene
        ({ p.controller with jump := pressed && can_jump }, scene', [],
          Option.none)
      else if button = cs.run then
        ({ p.controller with run := pressed }, scene, [], Option.none)
      else if button = cs.flash_light then
        (p.controller, scene,
          (if pressed then [Message.SwitchFlashLight cw] else []),
          Option.none)
      else if button = cs.grab_ak47 ∧ can_change_weapon then
        (p.controller, scene, [],
          if wantsDifferentKind current_weapon_kind .Ak47 then
            some (RequiredWeapon.specific .Ak47)
          else Option.none)
      else if button = cs.grab_m4 ∧ can_change_weapon then
        (p.controller, scene, [],
          if wantsDifferentKind current_weapon_kind .M4 then
            some (RequiredWeapon.specific .M4)
          else Option.none)
      else if button = cs.grab_plasma_gun ∧ can_change_weapon then
        (p.controller, scene, [],
          if wantsDifferentKind current_weapon_kind .PlasmaRifle then
            some (RequiredWeapon.specific .PlasmaRifle)
          else Option.none)
      else if button = cs.grab_pistol ∧ can_change_weapon then
        (p.controller, scene, [],
          if wantsDifferentKind current_weapon_kind .Glock then
            some (RequiredWeapon.specific .Glock)
          else Option.none)
      else if button = cs.next_weapon then
        (p.controller, scene, [],
          if pressed = true ∧ p.current_weapon < p.weapons.length - 1 ∧
              can_change_weapon then
            some RequiredWeapon.next
          else Option.none)
      else if button = cs.prev_weapon then
        (p.controller, scene, [],
          if pressed = true ∧ 0 < p.current_weapon ∧ can_change_weapon then
            some RequiredWeapon.previous
          else Option.none)
      else if button = cs.toss_grenade then
        if 0 < p.grenades then
          ({ p.controller with toss_grenade := pressed },
            (if pressed then
              { scene with toss := (scene.toss.set_enabled true).rewind }
            else scene), [], Option.none)
        else (p.controller, scene, [], Option.none)
      else if button = cs.shoot then
        ({ p.controller with shoot := pressed }, scene, [], Option.none)
      else if button = cs.cursor_up then
        ({ p.controller with cursor_up := pressed }, scene, [], Option.none)
      else if button = cs.cursor_down then
        ({ p.controller with cursor_down := pressed }, scene, [],
          Option.none)
      else if button = cs.action then
        ({ p.controller with action := pressed }, scene, [], Option.none)
      else if button = cs.inventory ∧ pressed = true ∧
          p.controller.aim = false then
        let newv := !scene.inventory_visible
        (p.controller,
          { scene with journal_visible := false, inventory_visible := newv },
          (if newv then [Message.SyncInventory] else []), Option.none)
      else if button = cs.journal ∧ pressed = true ∧
          p.controller.aim = false then
        let newv := !scene.journal_visible
        (p.controller,
          { scene with inventory_visible := false, journal_visible := newv },
          (if newv then [Message.SyncJournal] else []), Option.none)
      else (p.controller, scene, [], Option.none)
    match chain with
    | (ctrl, scene', msgs, Option.some wcd) =>
      { state :=
          { p with controller := ctrl, weapon_change_direction := wcd }
        scene :=
          { scene' with
            put_back := scene'.put_back.rewind
            grab := (scene'.grab.set_enabled false).rewind }
        msgs := msgs }
    | (ctrl, scene', msgs, Option.none) =>
      { state := { p with controller := ctrl }, scene := scene'
        msgs := msgs }

/-- A control scheme with pairwise-distinct button codes; the comparison
chain dispatches on code equality, so the claims are stated over this
concrete binding table. -/
def defaultScheme : ControlScheme :=
  { aim := 0, move_forward := 1, move_backward := 2, move_left := 3
    move_right := 4, jump := 5, run := 6, flash_light := 7, grab_ak47 := 8
    grab_m4 := 9, grab_plasma_gun := 10, grab_pistol := 11, next_weapon := 12
    prev_weapon := 13, toss_grenade := 14, shoot := 15, cursor_up := 16
    cursor_down := 17, action := 18, inventory := 19, journal := 20
    mouse_sens := 1, mouse_y_inverse := false }

/-- A concrete player-input state: one weapon (handle 7), one grenade. -/
def samplePlayerInput : PlayerInputState :=
  { controller := idleController, weapon_change_direction := .none
    weapons := [7], current_weapon := 0, grenades := 1 }

/-- A concrete scene for input processing: nothing playing, grab clip
finished, displays hidden. -/
def samplePlayerScene : PlayerScene :=
  { lower_jump := ⟨false, 0, false⟩, upper_jump := ⟨false, 0, false⟩
    grab := ⟨true, 0, true⟩, put_back := ⟨true, 0, false⟩
    toss := ⟨false, 0, false⟩, inventory_visible := false
    journal_visible := false }

/-- C7 counterexample: processing a flash-light key press emits an outbound
`SwitchFlashLight` message, and processing an aim press while the inventory
display is visible mutates display state — `process_input_event` is not
free of side effects beyond the input snapshot. -/
theorem process_input_event_emits_message :
    (process_input_event samplePlayerInput samplePlayerScene
        (fun _ => WeaponKind.M4) defaultScheme
        (InputEvent.button 7 true) 0).msgs =
      [Message.SwitchFlashLight 7]
    ∧ (process_input_event samplePlayerInput
        { samplePlayerScene with inventory_visible := true }
        (fun _ => WeaponKind.M4) defaultScheme
        (InputEvent.button 0 true) 0).scene ≠
      { samplePlayerScene with inventory_visible := true } := by
  constructor
  · decide
  · decide

/-- C7 amended: mouse motion and the movement / run / shoot / cursor /
action buttons mutate only the input snapshot (the appropriate flag or the
yaw/pitch accumulators) and emit nothing; but the handler is not pure in
general — a flash-light press emits `SwitchFlashLight`, and an aim press
additionally hides the inventory and journal displays. -/
theorem process_input_event_effects (p : PlayerInputState)
    (scene : PlayerScene) (wk : Handle → WeaponKind) (dt : ℚ) :
    (∀ dx dy : ℚ, process_input_event p scene wk defaultScheme
        (InputEvent.mouseMotion dx dy) dt =
      { state := { p with controller := { p.controller with
          yaw := p.controller.yaw - dx * (defaultScheme.mouse_sens * dt)
          pitch := min (max (p.controller.pitch +
            1 * dy * (defaultScheme.mouse_sens * dt)) (-rad90)) rad90 } }
        scene := scene, msgs := [] })
    ∧ (∀ pressed, process_input_event p scene wk defaultScheme
        (InputEvent.button defaultScheme.move_forward pressed) dt =
      { state := { p with controller :=
          { p.controller with walk_forward := pressed } }
        scene := scene, msgs := [] })
    ∧ (∀ pressed, process_input_event p scene wk defaultScheme
        (InputEvent.button defaultScheme.move_backward pressed) dt =
      { state := { p with controller :=
          { p.controller with walk_backward := pressed } }
        scene := scene, msgs := [] })
    ∧ (∀ pressed, process_input_event p scene wk defaultScheme
        (InputEvent.button defaultScheme.move_left pressed) dt =
      { state := { p with controller :=
          { p.controller with walk_left := pressed } }
        scene := scene, msgs := [] })
    ∧ (∀ pressed, process_input_event p scene wk defaultScheme
        (InputEvent.button defaultScheme.move_right pressed) dt =
      { state := { p with controller :=
          { p.controller with walk_right := pressed } }
        scene := scene, msgs := [] })
    ∧ (∀ pressed, process_input_event p scene wk defaultScheme
        (InputEvent.button defaultScheme.run pressed) dt =
      { state := { p with controller := { p.controller with run := pressed } }
        scene := scene, msgs := [] })
    ∧ (∀ pressed, process_input_event p scene wk defaultScheme
        (InputEvent.button defaultScheme.shoot pressed) dt =
      { state := { p with controller :=
          { p.controller with shoot := pressed } }
        scene := scene, msgs := [] })
    ∧ (∀ pressed, process_input_event p scene wk defaultScheme
        (InputEvent.button defaultScheme.cursor_up pressed) dt =
      { state := { p with controller :=
          { p.controller with cursor_up := pressed } }
        scene := scene, msgs := [] })
    ∧ (∀ pressed, process_input_event p scene wk defaultScheme
        (InputEvent.button defaultScheme.cursor_down pressed) dt =
      { state := { p with controller :=
          { p.controller with cursor_down := pressed } }
        scene := scene, msgs := [] })
    ∧ (∀ pressed, process_input_event p scene wk defaultScheme
        (InputEvent.button defaultScheme.action pressed) dt =
      { state := { p with controller :=
          { p.controller with action := pressed } }
        scene := scene, msgs := [] })
    ∧ (∀ pressed, process_input_event p scene wk defaultScheme
        (InputEvent.button defaultScheme.flash_light pressed) dt =
      { state := p, scene := scene
        msgs := if pressed then
            [Message.SwitchFlashLight (currentWeaponHandle p)]
          else [] })
    ∧ (∀ pressed, process_input_event p scene wk defaultScheme
        (InputEvent.button defaultScheme.aim pressed) dt =
      { state := { p with controller := { p.controller with aim := pressed } }
        scene := if pressed then
            { scene with inventory_visible := false, journal_visible := false }
          else scene
        msgs := [] }) := by
  refine ⟨?_, ?_, ?_, ?_, ?_, ?_, ?_, ?_, ?_, ?_, ?_, ?_⟩ <;>
    intro a <;> try intro b
  all_goals
    simp [process_input_event, defaultScheme]

/-- C10: a jump-button press sets the controller's jump flag exactly when
the lower-body jump animation is disabled or has ended; in that case both
jump animations are re-enabled and rewound; a press arriving while an
enabled, unfinished jump animation plays leaves the flag false and the
scene untouched. -/
theorem jump_press_gating (p : PlayerInputState) (scene : PlayerScene)
    (wk : Handle → WeaponKind) (dt : ℚ) :
    ((process_input_event p scene wk defaultScheme
        (InputEvent.button defaultScheme.jump true) dt).state.controller.jump
      = (!scene.lower_jump.enabled || scene.lower_jump.ended))
    ∧ ((!scene.lower_jump.enabled || scene.lower_jump.ended) = true →
        (process_input_event p scene wk defaultScheme
            (InputEvent.button defaultScheme.jump true) dt).scene =
          { scene with
            lower_jump := (scene.lower_jump.set_enabled true).rewind
            upper_jump := (scene.upper_jump.set_enabled true).rewind })
    ∧ (scene.lower_jump.enabled = true → scene.lower_jump.ended = false →
        (process_input_event p scene wk defaultScheme
            (InputEvent.button defaultScheme.jump true) dt
          ).state.controller.jump = false ∧
        (process_input_event p scene wk defaultScheme
            (InputEvent.button defaultScheme.jump true) dt).scene = scene) := by
  refine ⟨?_, ?_, ?_⟩
  · simp [process_input_event, defaultScheme]
  · intro h
    simp [process_input_event, defaultScheme, h]
  · intro he hn
    constructor
    · simp [process_input_event, defaultScheme, he, hn]
    · simp [process_input_event, defaultScheme, he, hn]

/-- The concrete scene of the C10 witness: the lower jump clip is enabled
and has already ended, so a fresh press may re-trigger the jump. -/
def wScene : PlayerScene :=
  { samplePlayerScene with lower_jump := ⟨true, 1, true⟩ }

/-- Witness for C10: pressing jump on `wScene` re-enables and rewinds both
jump animations. -/
theorem jump_press_gating_witness :
    (process_input_event samplePlayerInput wScene (fun _ => WeaponKind.M4)
        defaultScheme (InputEvent.button defaultScheme.jump true) 0).scene =
      { wScene with
        lower_jump := (wScene.lower_jump.set_enabled true).rewind
        upper_jump := (wScene.upper_jump.set_enabled true).rewind } :=
  (jump_press_gating samplePlayerInput wScene (fun _ => WeaponKind.M4)
    0).2.1 (by decide)

end StationIapetus
